import Mathlib

/-!
# Notification dispatch pipeline — shallow embedding

A shallow embedding of the notification-service dispatch pipeline:

* `TemplateEngine.render` (packages/backend/src/utils/templateEngine.ts): a
  Handlebars instance with four registered helpers (`uppercase`, `lowercase`,
  `formatDate`, `formatDateTime`).  We embed Handlebars' behaviour on the
  mustache fragment the service uses: literal text, bare variable references
  `\x7b\x7bname\x7d\x7d` (missing variable renders as the empty string, output
  is HTML-escaped) and helper applications `\x7b\x7bhelper arg\x7d\x7d`
  (an unregistered helper applied to arguments raises an error; Handlebars 4
  `helperMissing`).  All rendering errors are re-thrown by the wrapper as
  `Template rendering failed: ...`.
* `NotificationService.sendNotification` / `sendToChannel`
  (services/NotificationService.ts): user/template/subscription lookup, channel
  resolution, locale fallback, rendering, and the per-channel send loop.
  Database writes and provider invocations are recorded as an explicit event
  trace; each configured provider is modelled by its observable behaviour on
  this call (succeed / report failure / throw).
-/

namespace NotificationSvc

/-- `DeliveryChannel` enum from packages/shared (string enum in the source). -/
inductive DeliveryChannel where
  | APPLE_PUSH
  | GOOGLE_PUSH
  | SMS
  | EMAIL
deriving DecidableEq, Repr

/-- `NotificationStatus` enum from packages/shared. -/
inductive NotificationStatus where
  | PENDING
  | SENT
  | DELIVERED
  | FAILED
  | BOUNCED
deriving DecidableEq, Repr

/-- The string value of a `DeliveryChannel` (the enum values are their own
names in the source; used by string interpolation `${channel}`). -/
def channelName : DeliveryChannel → String
  | .APPLE_PUSH => "APPLE_PUSH"
  | .GOOGLE_PUSH => "GOOGLE_PUSH"
  | .SMS => "SMS"
  | .EMAIL => "EMAIL"

/-! ## Template engine

`TemplateEngine.render` compiles the pattern with Handlebars and applies it to
the variable map, wrapping any thrown error as `Template rendering failed: ...`.
Variables are modelled as an association list of string values. -/

/-- Opening-brace character (written via its code point). -/
def lbrace : Char := Char.ofNat 123

/-- Closing-brace character (written via its code point). -/
def rbrace : Char := Char.ofNat 125

/-- A parsed template token: literal text, or a mustache expression
(the whitespace-separated words between the double braces). -/
inductive Tok where
  | lit (s : String)
  | mustache (words : List String)
deriving DecidableEq, Repr

/-- Split a character list into whitespace-separated words
(`match[1].trim().split(/\s+/)` on the space-only patterns in scope). -/
def splitWordsAux : List Char → List Char → List String
  | [], acc => if acc.isEmpty then [] else [String.mk acc.reverse]
  | c :: rest, acc =>
      if c = ' ' then
        if acc.isEmpty then splitWordsAux rest []
        else String.mk acc.reverse :: splitWordsAux rest []
      else splitWordsAux rest (c :: acc)

/-- Split a string into its whitespace-separated words. -/
def splitWords (s : String) : List String := splitWordsAux s.data []

/-- Tokenizer state machine over the character list.  The first argument is
`none` while scanning literal text and `some acc` (reversed accumulated inner
characters) while inside a `\x7b\x7b ... \x7d\x7d` expression.  An unclosed
mustache yields `none` (Handlebars `compile` throws a parse error there). -/
def parseToksAux : Option (List Char) → List Char → Option (List Tok)
  | none, [] => some []
  | none, [c] => some [Tok.lit (String.singleton c)]
  | none, c1 :: c2 :: rest =>
      if c1 = lbrace ∧ c2 = lbrace then parseToksAux (some []) rest
      else (parseToksAux none (c2 :: rest)).map (fun ts => Tok.lit (String.singleton c1) :: ts)
  | some _, [] => none
  | some _, [_] => none
  | some acc, c1 :: c2 :: rest =>
      if c1 = rbrace ∧ c2 = rbrace then
        (parseToksAux none rest).map
          (fun ts => Tok.mustache (splitWords (String.mk acc.reverse)) :: ts)
      else parseToksAux (some (c1 :: acc)) (c2 :: rest)

/-- Tokenize a character list: `\x7b\x7b ... \x7d\x7d` becomes a mustache
token, everything else literal text; `none` on an unclosed mustache. -/
def parseToks (l : List Char) : Option (List Tok) := parseToksAux none l

/-- Handlebars `escapeExpression` on one character. -/
def escapeChar (c : Char) : String :=
  if c = '&' then "&amp;"
  else if c = '<' then "&lt;"
  else if c = '>' then "&gt;"
  else if c = '"' then "&quot;"
  else if c = '\'' then "&#x27;"
  else if c = Char.ofNat 96 then "&#x60;"
  else if c = '=' then "&#x3D;"
  else String.singleton c

/-- Handlebars `escapeExpression`, applied to every plain mustache result. -/
def escapeExpression (s : String) : String := String.join (s.data.map escapeChar)

/-- The helper names registered in `TemplateEngine.registerHelpers`. -/
def helperNames : List String := ["uppercase", "lowercase", "formatDate", "formatDateTime"]

/-- `formatDate` helper: `new Date(date).toLocaleDateString()`.  The output of
`toLocaleDateString` depends on the process locale/timezone; no claim depends
on it, so the formatting itself is modelled as an abstract (identity)
string function. -/
def formatDate (v : String) : String := v

/-- `formatDateTime` helper: `new Date(date).toLocaleString()`; formatting
modelled abstractly as for `formatDate`. -/
def formatDateTime (v : String) : String := v

/-- `str.toUpperCase()` (ASCII case folding, applied characterwise). -/
def strToUpper (v : String) : String := String.mk (v.data.map Char.toUpper)

/-- `str.toLowerCase()` (ASCII case folding, applied characterwise). -/
def strToLower (v : String) : String := String.mk (v.data.map Char.toLower)

/-- Apply a registered helper to its (string) argument value. -/
def applyHelper (h : String) (v : String) : String :=
  if h = "uppercase" then strToUpper v
  else if h = "lowercase" then strToLower v
  else if h = "formatDate" then formatDate v
  else formatDateTime v

/-- The wrapper in `TemplateEngine.render` catches any thrown error and
re-throws `Template rendering failed: <message>`. -/
def renderFailedMsg (m : String) : String := "Template rendering failed: " ++ m

/-- Handlebars 4 `helperMissing` error for an unregistered helper applied to
arguments. -/
def missingHelperMsg (h : String) : String := "Missing helper: \"" ++ h ++ "\""

/-- Error raised when a registered helper receives an undefined argument
(the JS helper body calls a string method on `undefined`). -/
def helperArgUndefinedMsg (h : String) : String :=
  "helper " ++ h ++ " applied to undefined"

/-- Error raised when a registered helper is referenced with no argument
(the JS helper body calls a string method on the options object). -/
def helperZeroArgMsg (h : String) : String :=
  "helper " ++ h ++ " applied to no argument"

/-- Render one token.  Bare references to a missing variable produce the empty
string; registered helpers are applied to their first argument; an
unregistered helper applied to arguments is an error (Handlebars
`helperMissing`); plain mustache output is HTML-escaped. -/
def renderTok (vars : List (String × String)) : Tok → Except String String
  | .lit s => .ok s
  | .mustache [] => .error (renderFailedMsg "Parse error: empty expression")
  | .mustache [w] =>
      if w ∈ helperNames then .error (renderFailedMsg (helperZeroArgMsg w))
      else .ok (escapeExpression ((vars.lookup w).getD ""))
  | .mustache (h :: a :: _) =>
      if h ∈ helperNames then
        match vars.lookup a with
        | some v => .ok (escapeExpression (applyHelper h v))
        | none => .error (renderFailedMsg (helperArgUndefinedMsg h))
      else .error (renderFailedMsg (missingHelperMsg h))

/-- Render a token list in order, concatenating; the first error aborts the
render (the first throw inside the compiled template propagates). -/
def renderToks (vars : List (String × String)) : List Tok → Except String String
  | [] => .ok ""
  | t :: ts =>
      match renderTok vars t with
      | .error e => .error e
      | .ok s =>
          match renderToks vars ts with
          | .error e => .error e
          | .ok r => .ok (s ++ r)

/-- `TemplateEngine.render`: compile the pattern and apply it to the variable
map; any thrown error becomes `Template rendering failed: ...`. -/
def render (template : String) (vars : List (String × String)) : Except String String :=
  match parseToks template.data with
  | none => .error (renderFailedMsg "Parse error")
  | some toks => renderToks vars toks

/-! ## Data model

Rows as returned by the database queries in `NotificationService` (snake_case
per the `SELECT *` column names used by the service code). -/

/-- A `users` row: locale plus the per-channel destination addresses read by
`sendToChannel`'s recipient switch. -/
structure User where
  id : String
  tenant_id : String
  email : Option String
  phone_number : Option String
  locale : String
  apns_device_token : Option String
  fcm_device_token : Option String
deriving DecidableEq, Repr

/-- One entry of a template's `translations` map. -/
structure TemplateTranslation where
  subject : Option String
  title : Option String
  body : String
deriving DecidableEq, Repr

/-- A `notification_templates` row: key, declared channel list, and the
locale → translation map (modelled as an association list). -/
structure NotificationTemplate where
  tenant_id : String
  key : String
  channels : List DeliveryChannel
  translations : List (String × TemplateTranslation)
deriving DecidableEq, Repr

/-- A `user_subscriptions` row: the `channels` JSON object mapping each
channel to its enabled flag (association list in object-entry order). -/
structure SubscriptionRow where
  user_id : String
  template_key : String
  channels : List (DeliveryChannel × Bool)
deriving DecidableEq, Repr

/-- The persistent store visible to one dispatch call. -/
structure Db where
  users : List User
  templates : List NotificationTemplate
  subscriptions : List SubscriptionRow
deriving Repr

/-- `SendNotificationRequest` from packages/shared: the `variables` and
`channels` fields are optional.  (`variables` is a reserved word in Lean, so
the field is named `vars` here.) -/
structure SendNotificationRequest where
  userId : String
  templateKey : String
  vars : Option (List (String × String))
  channels : Option (List DeliveryChannel)
deriving DecidableEq, Repr

/-- `SendNotificationResponse` from packages/shared; an error entry
`\x7bchannel, error\x7d` is modelled as a pair, and the `errors` field is
absent (`none`) exactly when the service omits it. -/
structure SendNotificationResponse where
  success : Bool
  notificationIds : List String
  errors : Option (List (DeliveryChannel × String))
deriving DecidableEq, Repr

/-- `SELECT * FROM users WHERE id = $1 AND tenant_id = $2`. -/
def queryUsers (db : Db) (userId tenantId : String) : List User :=
  db.users.filter (fun u => u.id == userId && u.tenant_id == tenantId)

/-- `SELECT * FROM notification_templates WHERE tenant_id = $1 AND key = $2`. -/
def queryTemplates (db : Db) (tenantId key : String) : List NotificationTemplate :=
  db.templates.filter (fun t => t.tenant_id == tenantId && t.key == key)

/-- `SELECT channels FROM user_subscriptions WHERE user_id = $1 AND
template_key = $2`. -/
def querySubscriptions (db : Db) (userId templateKey : String) :
    List (List (DeliveryChannel × Bool)) :=
  (db.subscriptions.filter
    (fun s => s.user_id == userId && s.template_key == templateKey)).map
    (fun s => s.channels)

/-! ## Channel resolution (sendNotification, "Determine which channels to use") -/

/-- The no-override path: `subscriptionResult.rows.length > 0` → the enabled
entries of `rows[0].channels` (in entry order); otherwise the template's
declared channel list. -/
def resolveDefaultChannels (subscriptionRows : List (List (DeliveryChannel × Bool)))
    (template : NotificationTemplate) : List DeliveryChannel :=
  match subscriptionRows with
  | row :: _ => (row.filter (fun p => p.2)).map (fun p => p.1)
  | [] => template.channels

/-- `if (request.channels && request.channels.length > 0)` — the request's
channel list is used only when present and non-empty; otherwise resolution
falls through to subscription/template defaults. -/
def resolveChannels (request : SendNotificationRequest)
    (subscriptionRows : List (List (DeliveryChannel × Bool)))
    (template : NotificationTemplate) : List DeliveryChannel :=
  match request.channels with
  | some cs =>
      if cs.length > 0 then cs else resolveDefaultChannels subscriptionRows template
  | none => resolveDefaultChannels subscriptionRows template

/-- Reference definition, following the specification text of §4.1 Channel
Resolver: non-empty override verbatim; else, when a consent record exists,
the channels whose flag is `true`; else the template's declared set. -/
def resolveChannelsSpec (request : SendNotificationRequest)
    (consent : Option (List (DeliveryChannel × Bool)))
    (template : NotificationTemplate) : List DeliveryChannel :=
  if request.channels.getD [] ≠ [] then request.channels.getD []
  else
    match consent with
    | some m => (m.filter (fun p => p.2)).map (fun p => p.1)
    | none => template.channels

/-- `template.translations[user.locale] || template.translations['en-US']` —
exact locale match wins, else the default-locale entry. -/
def lookupTranslation (template : NotificationTemplate) (locale : String) :
    Option TemplateTranslation :=
  match template.translations.lookup locale with
  | some t => some t
  | none => template.translations.lookup "en-US"

/-- The transient rendered content of one dispatch call. -/
structure RenderedContent where
  subject : Option String
  title : Option String
  body : String
deriving DecidableEq, Repr

/-- `translation.subject ? templateEngine.render(...) : undefined` — an absent
field stays absent; a present field is rendered and its error propagates. -/
def renderOptField (field : Option String) (vars : List (String × String)) :
    Except String (Option String) :=
  match field with
  | none => .ok none
  | some s =>
      match render s vars with
      | .error e => .error e
      | .ok r => .ok (some r)

/-- Render subject/title/body (in the source's object-literal order); the body
is always rendered, subject/title only when the translation has them.  Any
render error aborts the whole dispatch. -/
def renderContent (translation : TemplateTranslation) (vars : List (String × String)) :
    Except String RenderedContent :=
  match renderOptField translation.subject vars with
  | .error e => .error e
  | .ok subject =>
      match renderOptField translation.title vars with
      | .error e => .error e
      | .ok title =>
          match render translation.body vars with
          | .error e => .error e
          | .ok body => .ok { subject := subject, title := title, body := body }

/-! ## Providers, delivery records, and the per-channel send -/

/-- Observable behaviour of a configured provider's `send` on this call:
report success, report a failure (`result.error`, possibly absent), or throw
(the thrown error's message). -/
inductive ProviderBehavior where
  | succeeds
  | fails (err : Option String)
  | throws (msg : String)
deriving DecidableEq, Repr

/-- The service's provider map: only configured providers are present
(`initializeProviders` registers a provider only when `isConfigured()`). -/
structure Env where
  providers : List (DeliveryChannel × ProviderBehavior)
deriving Repr

/-- Database writes and provider invocations, recorded in execution order. -/
inductive Event where
  | insertNotification (id : String) (channel : DeliveryChannel) (status : NotificationStatus)
  | providerSend (id : String) (channel : DeliveryChannel) (recipient : String)
      (content : RenderedContent)
  | updateStatus (id : String) (status : NotificationStatus) (error : Option String)
deriving DecidableEq, Repr

/-- `uuidv4()` modelled as a fresh identifier drawn from a per-call counter. -/
def uuidString (n : Nat) : String := "uuid-" ++ toString n

/-- The recipient switch in `sendToChannel`. -/
def recipientFor (user : User) : DeliveryChannel → Option String
  | .APPLE_PUSH => user.apns_device_token
  | .GOOGLE_PUSH => user.fcm_device_token
  | .SMS => user.phone_number
  | .EMAIL => user.email

/-- `NotificationService.sendToChannel`: insert a `PENDING` delivery record,
then look up the provider, resolve the recipient, and send; every failure path
updates the record to `FAILED` and returns `null` (modelled `none`), success
updates it to `SENT` and returns the record id.  The result is paired with the
event trace of the call. -/
def sendToChannel (env : Env) (user : User) (channel : DeliveryChannel)
    (renderedContent : RenderedContent) (n : Nat) :
    Option String × List Event :=
  let notificationId := uuidString n
  let insertEv := Event.insertNotification notificationId channel NotificationStatus.PENDING
  match env.providers.lookup channel with
  | none =>
      (none, [insertEv,
        Event.updateStatus notificationId NotificationStatus.FAILED
          (some ("Provider not configured for channel " ++ channelName channel))])
  | some behavior =>
      match recipientFor user channel with
      | none =>
          (none, [insertEv,
            Event.updateStatus notificationId NotificationStatus.FAILED
              (some ("No recipient configured for channel " ++ channelName channel))])
      | some recipient =>
          let sendEv := Event.providerSend notificationId channel recipient renderedContent
          match behavior with
          | .succeeds =>
              (some notificationId, [insertEv, sendEv,
                Event.updateStatus notificationId NotificationStatus.SENT none])
          | .fails err =>
              (none, [insertEv, sendEv,
                Event.updateStatus notificationId NotificationStatus.FAILED err])
          | .throws msg =>
              (none, [insertEv, sendEv,
                Event.updateStatus notificationId NotificationStatus.FAILED (some msg)])

/-- Whether the attempt for `channel` reaches a successful send: a configured
provider that succeeds, and a recipient address present. -/
def channelSucceeds (env : Env) (user : User) (channel : DeliveryChannel) : Bool :=
  match env.providers.lookup channel with
  | some .succeeds => (recipientFor user channel).isSome
  | _ => false

/-- The generic message pushed into the response's `errors` array for every
failed channel. -/
def genericSendError : String := "Failed to send notification"

/-- The `for (const channel of channels)` loop in `sendNotification`:
collect the returned id, or push `(channel, genericSendError)`; traces are
concatenated in iteration order. -/
def sendLoop (env : Env) (user : User) (renderedContent : RenderedContent) :
    List DeliveryChannel → Nat →
    List String × List (DeliveryChannel × String) × List Event
  | [], _ => ([], [], [])
  | c :: rest, n =>
      let r := sendToChannel env user c renderedContent n
      let tail := sendLoop env user renderedContent rest (n + 1)
      match r.1 with
      | some nid => (nid :: tail.1, tail.2.1, r.2 ++ tail.2.2)
      | none => (tail.1, (c, genericSendError) :: tail.2.1, r.2 ++ tail.2.2)

/-- The aggregation at the end of `sendNotification`: overall `success` is
`notificationIds.length > 0`, and `errors` is present only when non-empty. -/
def aggregateResult (r : List String × List (DeliveryChannel × String) × List Event) :
    SendNotificationResponse :=
  { success := decide (0 < r.1.length),
    notificationIds := r.1,
    errors := if 0 < r.2.1.length then some r.2.1 else none }

/-- `NotificationService.sendNotification` before the outer catch wraps the
error message: load user and template (tenant-scoped, first row), read the
subscription rows, resolve channels, pick the translation with default-locale
fallback, render, then run the per-channel loop and aggregate.  Returns the
event trace together with the response or the thrown error message. -/
def sendNotificationCore (env : Env) (db : Db) (tenantId : String)
    (request : SendNotificationRequest) :
    List Event × Except String SendNotificationResponse :=
  match queryUsers db request.userId tenantId with
  | [] => ([], .error "User not found")
  | user :: _ =>
      match queryTemplates db tenantId request.templateKey with
      | [] => ([], .error "Template not found")
      | template :: _ =>
          let subscriptionRows := querySubscriptions db user.id request.templateKey
          let channels := resolveChannels request subscriptionRows template
          match lookupTranslation template user.locale with
          | none => ([], .error "No translation available for user locale")
          | some translation =>
              match renderContent translation (request.vars.getD []) with
              | .error e => ([], .error e)
              | .ok renderedContent =>
                  let r := sendLoop env user renderedContent channels 0
                  (r.2.2, .ok (aggregateResult r))

/-- `NotificationService.sendNotification`: the outer catch re-throws every
error as `Failed to send notification: <message>`. -/
def sendNotification (env : Env) (db : Db) (tenantId : String)
    (request : SendNotificationRequest) :
    List Event × Except String SendNotificationResponse :=
  let r := sendNotificationCore env db tenantId request
  (r.1, r.2.mapError (fun m => "Failed to send notification: " ++ m))

/-! ## Trace projections -/

/-- Whether an event is a delivery-record insertion. -/
def isInsert : Event → Bool
  | .insertNotification .. => true
  | _ => false

/-- The record ids whose status was updated to `SENT`, in trace order. -/
def sentIds (trace : List Event) : List String :=
  trace.filterMap (fun e =>
    match e with
    | .updateStatus id .SENT _ => some id
    | _ => none)

/-- The `(id, error)` pairs of updates to `FAILED`, in trace order. -/
def failedUpdates (trace : List Event) : List (String × Option String) :=
  trace.filterMap (fun e =>
    match e with
    | .updateStatus id .FAILED err => some (id, err)
    | _ => none)

/-- The channels of the delivery records inserted, in trace order. -/
def insertedChannels (trace : List Event) : List DeliveryChannel :=
  trace.filterMap (fun e =>
    match e with
    | .insertNotification _ c _ => some c
    | _ => none)

/-- The error recorded in the delivery record when the attempt for `channel`
fails: unconfigured provider, missing recipient, the backend-reported
`result.error`, or the thrown error's message. -/
def failReason (env : Env) (user : User) (channel : DeliveryChannel) : Option String :=
  match env.providers.lookup channel with
  | none => some ("Provider not configured for channel " ++ channelName channel)
  | some b =>
      match recipientFor user channel with
      | none => some ("No recipient configured for channel " ++ channelName channel)
      | some _ =>
          match b with
          | .succeeds => none
          | .fails err => err
          | .throws msg => some msg

/-! ## Concrete fixtures (used by witnesses and the counterexample) -/

/-- A user with an email address, no phone, Spanish locale. -/
def exUser : User :=
  { id := "u1", tenant_id := "t1", email := some "ana@example.com",
    phone_number := none, locale := "es-ES",
    apns_device_token := none, fcm_device_token := none }

/-- A translation whose body has one bare placeholder. -/
def exTranslation : TemplateTranslation :=
  { subject := none, title := none, body := "Hi \x7b\x7bname\x7d\x7d!" }

/-- A template declaring EMAIL and SMS, translated only for the default
locale. -/
def exTemplate : NotificationTemplate :=
  { tenant_id := "t1", key := "welcome", channels := [.EMAIL, .SMS],
    translations := [("en-US", exTranslation)] }

/-- Store with one user and one template, no subscriptions. -/
def exDb : Db :=
  { users := [exUser], templates := [exTemplate], subscriptions := [] }

/-- Only the EMAIL provider is configured, and it succeeds. -/
def exEnv : Env := { providers := [(.EMAIL, .succeeds)] }

/-- A send request with a variable map and no channel override. -/
def exRequest : SendNotificationRequest :=
  { userId := "u1", templateKey := "welcome",
    vars := some [("name", "Ana")], channels := none }

/-- The content rendered from `exTranslation` with `exRequest`'s variables. -/
def exRendered : RenderedContent :=
  { subject := none, title := none, body := "Hi Ana!" }

/-- A template with an empty translation map (no locale at all). -/
def exTemplateNoLocale : NotificationTemplate :=
  { tenant_id := "t1", key := "broken", channels := [.EMAIL], translations := [] }

/-- Store holding only the untranslated template. -/
def exDbNoLocale : Db :=
  { users := [exUser], templates := [exTemplateNoLocale], subscriptions := [] }

/-- Request targeting the untranslated template. -/
def exRequestNoLocale : SendNotificationRequest :=
  { userId := "u1", templateKey := "broken", vars := none, channels := none }

/-- A translation whose body applies the unregistered transform
`frobnicate`. -/
def exTranslationBad : TemplateTranslation :=
  { subject := none, title := none, body := "Hi \x7b\x7bfrobnicate name\x7d\x7d!" }

/-- A template whose only translation has the unknown-transform body. -/
def exTemplateBad : NotificationTemplate :=
  { tenant_id := "t1", key := "bad", channels := [.EMAIL],
    translations := [("en-US", exTranslationBad)] }

/-- Store holding the unknown-transform template. -/
def exDbBad : Db :=
  { users := [exUser], templates := [exTemplateBad], subscriptions := [] }

/-- Request targeting the unknown-transform template. -/
def exRequestBad : SendNotificationRequest :=
  { userId := "u1", templateKey := "bad", vars := some [("name", "Ana")], channels := none }

/-- The event trace of dispatching `exRequest` against `exDb` under `exEnv`. -/
def exTrace : List Event :=
  [Event.insertNotification "uuid-0" DeliveryChannel.EMAIL NotificationStatus.PENDING,
   Event.providerSend "uuid-0" DeliveryChannel.EMAIL "ana@example.com" exRendered,
   Event.updateStatus "uuid-0" NotificationStatus.SENT none,
   Event.insertNotification "uuid-1" DeliveryChannel.SMS NotificationStatus.PENDING,
   Event.updateStatus "uuid-1" NotificationStatus.FAILED
     (some "Provider not configured for channel SMS")]

/-- The response of dispatching `exRequest` against `exDb` under `exEnv`. -/
def exResponse : SendNotificationResponse :=
  { success := true, notificationIds := ["uuid-0"],
    errors := some [(DeliveryChannel.SMS, genericSendError)] }

end NotificationSvc

deriving instance DecidableEq for Except

namespace NotificationSvc

/-! ## Lemmas: the per-channel send -/

theorem sendToChannel_fst (env : Env) (user : User) (channel : DeliveryChannel)
    (rc : RenderedContent) (n : Nat) :
    (sendToChannel env user channel rc n).1 =
      if channelSucceeds env user channel then some (uuidString n) else none := by
  cases hl : env.providers.lookup channel with
  | none => simp [sendToChannel, channelSucceeds, hl]
  | some b =>
      cases hr : recipientFor user channel with
      | none => cases b <;> simp [sendToChannel, channelSucceeds, hl, hr]
      | some r => cases b <;> simp [sendToChannel, channelSucceeds, hl, hr]

theorem sendToChannel_sentIds (env : Env) (user : User) (channel : DeliveryChannel)
    (rc : RenderedContent) (n : Nat) :
    sentIds (sendToChannel env user channel rc n).2 =
      if channelSucceeds env user channel then [uuidString n] else [] := by
  cases hl : env.providers.lookup channel with
  | none => simp [sendToChannel, channelSucceeds, hl, sentIds]
  | some b =>
      cases hr : recipientFor user channel with
      | none => cases b <;> simp [sendToChannel, channelSucceeds, hl, hr, sentIds]
      | some r => cases b <;> simp [sendToChannel, channelSucceeds, hl, hr, sentIds]

theorem sendToChannel_failedUpdates (env : Env) (user : User) (channel : DeliveryChannel)
    (rc : RenderedContent) (n : Nat) :
    failedUpdates (sendToChannel env user channel rc n).2 =
      if channelSucceeds env user channel then []
      else [(uuidString n, failReason env user channel)] := by
  cases hl : env.providers.lookup channel with
  | none => simp [sendToChannel, channelSucceeds, hl, failedUpdates, failReason]
  | some b =>
      cases hr : recipientFor user channel with
      | none =>
          cases b <;> simp [sendToChannel, channelSucceeds, hl, hr, failedUpdates, failReason]
      | some r =>
          cases b <;> simp [sendToChannel, channelSucceeds, hl, hr, failedUpdates, failReason]

theorem sendToChannel_insertedChannels (env : Env) (user : User) (channel : DeliveryChannel)
    (rc : RenderedContent) (n : Nat) :
    insertedChannels (sendToChannel env user channel rc n).2 = [channel] := by
  cases hl : env.providers.lookup channel with
  | none => simp [sendToChannel, hl, insertedChannels]
  | some b =>
      cases hr : recipientFor user channel with
      | none => cases b <;> simp [sendToChannel, hl, hr, insertedChannels]
      | some r => cases b <;> simp [sendToChannel, hl, hr, insertedChannels]

/-! ## Lemmas: trace membership -/

theorem sentIds_mem (trace : List Event) (id : String) :
    id ∈ sentIds trace ↔ ∃ err, Event.updateStatus id NotificationStatus.SENT err ∈ trace := by
  simp only [sentIds, List.mem_filterMap]
  constructor
  · rintro ⟨e, he, hf⟩
    cases e with
    | insertNotification id2 c st => simp at hf
    | providerSend id2 c r rc => simp at hf
    | updateStatus id2 st err =>
        cases st <;> simp at hf
        exact ⟨err, hf ▸ he⟩
  · rintro ⟨err, h⟩
    exact ⟨Event.updateStatus id NotificationStatus.SENT err, h, rfl⟩

theorem failedUpdates_mem (trace : List Event) (id : String) (err : Option String) :
    (id, err) ∈ failedUpdates trace ↔
      Event.updateStatus id NotificationStatus.FAILED err ∈ trace := by
  simp only [failedUpdates, List.mem_filterMap]
  constructor
  · rintro ⟨e, he, hf⟩
    cases e with
    | insertNotification id2 c st => simp at hf
    | providerSend id2 c r rc => simp at hf
    | updateStatus id2 st err2 =>
        cases st <;> simp at hf
        obtain ⟨h1, h2⟩ := hf
        exact h1 ▸ h2 ▸ he
  · intro h
    exact ⟨Event.updateStatus id NotificationStatus.FAILED err, h, rfl⟩

theorem sentIds_append (t1 t2 : List Event) :
    sentIds (t1 ++ t2) = sentIds t1 ++ sentIds t2 := by
  simp [sentIds, List.filterMap_append]

theorem failedUpdates_append (t1 t2 : List Event) :
    failedUpdates (t1 ++ t2) = failedUpdates t1 ++ failedUpdates t2 := by
  simp [failedUpdates, List.filterMap_append]

theorem insertedChannels_append (t1 t2 : List Event) :
    insertedChannels (t1 ++ t2) = insertedChannels t1 ++ insertedChannels t2 := by
  simp [insertedChannels, List.filterMap_append]

/-! ## Lemmas: the per-channel loop -/

theorem sendLoop_ids (env : Env) (user : User) (rc : RenderedContent) :
    ∀ (cs : List DeliveryChannel) (n : Nat),
      (sendLoop env user rc cs n).1 =
        ((List.enumFrom n cs).filter (fun p => channelSucceeds env user p.2)).map
          (fun p => uuidString p.1) := by
  intro cs
  induction cs with
  | nil => intro n; simp [sendLoop]
  | cons c rest ih =>
      intro n
      simp only [sendLoop, sendToChannel_fst, List.enumFrom, List.filter_cons]
      by_cases hs : channelSucceeds env user c
      · simp [hs, ih]
      · simp [hs, ih]

theorem sendLoop_errs (env : Env) (user : User) (rc : RenderedContent) :
    ∀ (cs : List DeliveryChannel) (n : Nat),
      (sendLoop env user rc cs n).2.1 =
        (cs.filter (fun c => !(channelSucceeds env user c))).map
          (fun c => (c, genericSendError)) := by
  intro cs
  induction cs with
  | nil => intro n; simp [sendLoop]
  | cons c rest ih =>
      intro n
      simp only [sendLoop, sendToChannel_fst, List.filter_cons]
      by_cases hs : channelSucceeds env user c
      · simp [hs, ih]
      · simp [hs, ih]

theorem sendLoop_length (env : Env) (user : User) (rc : RenderedContent) :
    ∀ (cs : List DeliveryChannel) (n : Nat),
      (sendLoop env user rc cs n).1.length + (sendLoop env user rc cs n).2.1.length =
        cs.length := by
  intro cs
  induction cs with
  | nil => intro n; simp [sendLoop]
  | cons c rest ih =>
      intro n
      simp only [sendLoop, sendToChannel_fst]
      cases hs : channelSucceeds env user c with
      | true =>
          have := ih (n + 1)
          simp [hs]
          omega
      | false =>
          have := ih (n + 1)
          simp [hs]
          omega

theorem sendLoop_sentIds (env : Env) (user : User) (rc : RenderedContent) :
    ∀ (cs : List DeliveryChannel) (n : Nat),
      sentIds (sendLoop env user rc cs n).2.2 = (sendLoop env user rc cs n).1 := by
  intro cs
  induction cs with
  | nil => intro n; simp [sendLoop, sentIds]
  | cons c rest ih =>
      intro n
      simp only [sendLoop, sendToChannel_fst]
      by_cases hs : channelSucceeds env user c
      · simp [hs, sentIds_append, sendToChannel_sentIds, ih]
      · simp [hs, sentIds_append, sendToChannel_sentIds, ih]

theorem sendLoop_insertedChannels (env : Env) (user : User) (rc : RenderedContent) :
    ∀ (cs : List DeliveryChannel) (n : Nat),
      insertedChannels (sendLoop env user rc cs n).2.2 = cs := by
  intro cs
  induction cs with
  | nil => intro n; simp [sendLoop, insertedChannels]
  | cons c rest ih =>
      intro n
      simp only [sendLoop, sendToChannel_fst]
      by_cases hs : channelSucceeds env user c
      · simp [hs, insertedChannels_append, sendToChannel_insertedChannels, ih]
      · simp [hs, insertedChannels_append, sendToChannel_insertedChannels, ih]

theorem sendLoop_failedUpdates (env : Env) (user : User) (rc : RenderedContent) :
    ∀ (cs : List DeliveryChannel) (n : Nat),
      failedUpdates (sendLoop env user rc cs n).2.2 =
        ((List.enumFrom n cs).filter (fun p => !(channelSucceeds env user p.2))).map
          (fun p => (uuidString p.1, failReason env user p.2)) := by
  intro cs
  induction cs with
  | nil => intro n; simp [sendLoop, failedUpdates]
  | cons c rest ih =>
      intro n
      simp only [sendLoop, sendToChannel_fst, List.enumFrom, List.filter_cons]
      by_cases hs : channelSucceeds env user c
      · simp [hs, failedUpdates_append, sendToChannel_failedUpdates, ih]
      · simp [hs, failedUpdates_append, sendToChannel_failedUpdates, ih]

theorem sendLoop_failedUpdates_nil_iff (env : Env) (user : User) (rc : RenderedContent)
    (cs : List DeliveryChannel) (n : Nat) :
    (failedUpdates (sendLoop env user rc cs n).2.2 = [] ↔ (sendLoop env user rc cs n).2.1 = []) := by
  induction cs generalizing n with
  | nil => simp [sendLoop, failedUpdates]
  | cons c rest ih =>
      simp only [sendLoop, sendToChannel_fst]
      by_cases hs : channelSucceeds env user c
      · simp [hs, failedUpdates_append, sendToChannel_failedUpdates, ih]
      · simp [hs, failedUpdates_append, sendToChannel_failedUpdates]

/-! ## Lemmas: characterizing a dispatch that reaches the loop -/

theorem sendNotificationCore_ok (env : Env) (db : Db) (tenantId : String)
    (request : SendNotificationRequest) (user : User) (us : List User)
    (template : NotificationTemplate) (ts : List NotificationTemplate)
    (translation : TemplateTranslation) (rc : RenderedContent)
    (hu : queryUsers db request.userId tenantId = user :: us)
    (ht : queryTemplates db tenantId request.templateKey = template :: ts)
    (htr : lookupTranslation template user.locale = some translation)
    (hrc : renderContent translation (request.vars.getD []) = .ok rc) :
    sendNotificationCore env db tenantId request =
      ((sendLoop env user rc
          (resolveChannels request (querySubscriptions db user.id request.templateKey) template)
          0).2.2,
       .ok (aggregateResult
          (sendLoop env user rc
            (resolveChannels request (querySubscriptions db user.id request.templateKey) template)
            0))) := by
  simp only [sendNotificationCore, hu, ht, htr, hrc]

theorem sendNotification_ok_inv (env : Env) (db : Db) (tenantId : String)
    (request : SendNotificationRequest) (trace : List Event)
    (resp : SendNotificationResponse)
    (h : sendNotification env db tenantId request = (trace, .ok resp)) :
    ∃ user us template ts translation rc,
      queryUsers db request.userId tenantId = user :: us ∧
      queryTemplates db tenantId request.templateKey = template :: ts ∧
      lookupTranslation template user.locale = some translation ∧
      renderContent translation (request.vars.getD []) = .ok rc ∧
      trace = (sendLoop env user rc
          (resolveChannels request (querySubscriptions db user.id request.templateKey) template)
          0).2.2 ∧
      resp = aggregateResult
          (sendLoop env user rc
            (resolveChannels request (querySubscriptions db user.id request.templateKey) template)
            0) := by
  cases hu : queryUsers db request.userId tenantId with
  | nil => simp [sendNotification, sendNotificationCore, hu, Except.mapError] at h
  | cons user us =>
      cases ht : queryTemplates db tenantId request.templateKey with
      | nil => simp [sendNotification, sendNotificationCore, hu, ht, Except.mapError] at h
      | cons template ts =>
          cases htr : lookupTranslation template user.locale with
          | none =>
              simp [sendNotification, sendNotificationCore, hu, ht, htr, Except.mapError] at h
          | some translation =>
              cases hrc : renderContent translation (request.vars.getD []) with
              | error e =>
                  simp [sendNotification, sendNotificationCore, hu, ht, htr, hrc,
                    Except.mapError] at h
              | ok rc =>
                  simp only [sendNotification, sendNotificationCore, hu, ht, htr, hrc,
                    Except.mapError] at h
                  exact ⟨user, us, template, ts, translation, rc, rfl, rfl, htr, hrc,
                    (congrArg Prod.fst h).symm, (Except.ok.inj (congrArg Prod.snd h)).symm⟩

/-! ## Lemmas: shape of rendering errors -/

theorem renderTok_error_shape (vars : List (String × String)) (t : Tok) (e : String)
    (h : renderTok vars t = .error e) : ∃ m, e = renderFailedMsg m := by
  cases t with
  | lit s => simp [renderTok] at h
  | mustache words =>
      match words with
      | [] =>
          simp only [renderTok, Except.error.injEq] at h
          exact ⟨_, h.symm⟩
      | [w] =>
          simp only [renderTok] at h
          by_cases hw : w ∈ helperNames
          · rw [if_pos hw] at h
            exact ⟨_, (Except.error.inj h).symm⟩
          · rw [if_neg hw] at h
            cases h
      | h2 :: a :: rest =>
          simp only [renderTok] at h
          by_cases hw : h2 ∈ helperNames
          · rw [if_pos hw] at h
            cases hl : vars.lookup a with
            | some v => rw [hl] at h; cases h
            | none => rw [hl] at h; exact ⟨_, (Except.error.inj h).symm⟩
          · rw [if_neg hw] at h
            exact ⟨_, (Except.error.inj h).symm⟩

theorem renderToks_error_shape (vars : List (String × String)) :
    ∀ (toks : List Tok) (e : String),
      renderToks vars toks = .error e → ∃ m, e = renderFailedMsg m := by
  intro toks
  induction toks with
  | nil => intro e h; simp [renderToks] at h
  | cons t ts ih =>
      intro e h
      simp only [renderToks] at h
      cases h1 : renderTok vars t with
      | error e1 =>
          rw [h1] at h
          have he : e1 = e := Except.error.inj h
          exact he ▸ renderTok_error_shape vars t e1 h1
      | ok s1 =>
          rw [h1] at h
          cases h2 : renderToks vars ts with
          | error e2 =>
              rw [h2] at h
              exact (Except.error.inj h) ▸ ih e2 h2
          | ok s2 => rw [h2] at h; cases h

theorem render_error_shape (p : String) (vars : List (String × String)) (e : String)
    (h : render p vars = .error e) : ∃ m, e = renderFailedMsg m := by
  simp only [render] at h
  cases hp : parseToks p.data with
  | none => rw [hp] at h; exact ⟨_, (Except.error.inj h).symm⟩
  | some toks => rw [hp] at h; exact renderToks_error_shape vars toks e h

/-- A token list that renders successfully contains no helper application with
an unregistered helper name. -/
theorem renderToks_ok_no_unknown_helper (vars : List (String × String)) :
    ∀ (toks : List Tok) (s : String), renderToks vars toks = .ok s →
      ∀ h a rest, Tok.mustache (h :: a :: rest) ∈ toks → h ∈ helperNames := by
  intro toks
  induction toks with
  | nil => intro s hok h a rest hm; simp at hm
  | cons t ts ih =>
      intro s hok h a rest hm
      simp only [renderToks] at hok
      cases h1 : renderTok vars t with
      | error e1 => rw [h1] at hok; cases hok
      | ok s1 =>
          rw [h1] at hok
          cases h2 : renderToks vars ts with
          | error e2 => rw [h2] at hok; cases hok
          | ok s2 =>
              rcases List.mem_cons.mp hm with heq | hmem
              · subst heq
                simp only [renderTok] at h1
                by_cases hw : h ∈ helperNames
                · exact hw
                · rw [if_neg hw] at h1; cases h1
              · exact ih s2 h2 h a rest hmem

/-- A pattern containing an unregistered-helper application fails to render,
with the `Template rendering failed:` wrapper. -/
theorem render_fails_of_unknown_helper (p : String) (vars : List (String × String))
    (h a : String) (rest : List String)
    (hm : Tok.mustache (h :: a :: rest) ∈ (parseToks p.data).getD [])
    (hh : h ∉ helperNames) :
    ∃ m, render p vars = .error (renderFailedMsg m) := by
  simp only [render]
  cases hp : parseToks p.data with
  | none => exact ⟨"Parse error", rfl⟩
  | some toks =>
      rw [hp] at hm
      simp only [Option.getD_some] at hm
      cases hr : renderToks vars toks with
      | error e =>
          obtain ⟨m, hm2⟩ := renderToks_error_shape vars toks e hr
          exact ⟨m, hm2 ▸ hr⟩
      | ok s =>
          exact absurd (renderToks_ok_no_unknown_helper vars toks s hr h a rest hm) hh

theorem renderOptField_error_shape (field : Option String) (vars : List (String × String))
    (e : String) (h : renderOptField field vars = .error e) : ∃ m, e = renderFailedMsg m := by
  cases field with
  | none => simp [renderOptField] at h
  | some s =>
      simp only [renderOptField] at h
      cases hr : render s vars with
      | error e1 => rw [hr] at h; exact (Except.error.inj h) ▸ render_error_shape s vars e1 hr
      | ok r => rw [hr] at h; cases h

/-- If the body pattern fails to render, the whole content render fails, with
the `Template rendering failed:` wrapper. -/
theorem renderContent_fails_of_body (translation : TemplateTranslation)
    (vars : List (String × String)) (e : String)
    (hb : render translation.body vars = .error e) :
    ∃ m, renderContent translation vars = .error (renderFailedMsg m) := by
  simp only [renderContent]
  cases h1 : renderOptField translation.subject vars with
  | error e1 =>
      obtain ⟨m, hm⟩ := renderOptField_error_shape translation.subject vars e1 h1
      exact ⟨m, hm ▸ rfl⟩
  | ok s1 =>
      cases h2 : renderOptField translation.title vars with
      | error e2 =>
          obtain ⟨m, hm⟩ := renderOptField_error_shape translation.title vars e2 h2
          exact ⟨m, hm ▸ rfl⟩
      | ok s2 =>
          obtain ⟨m, hm⟩ := render_error_shape translation.body vars e hb
          rw [hb]
          exact ⟨m, hm ▸ rfl⟩

/-- The failure list carried by the response equals the loop's failure list
(the response omits the field exactly when that list is empty). -/
theorem aggregateResult_errors_getD
    (r : List String × List (DeliveryChannel × String) × List Event) :
    (aggregateResult r).errors.getD [] = r.2.1 := by
  simp only [aggregateResult]
  by_cases hp : 0 < r.2.1.length
  · rw [if_pos hp]; rfl
  · rw [if_neg hp]
    have : r.2.1 = [] := List.length_eq_zero.mp (by omega)
    simp [this]

/-! ## Claims -/

/-- Claim C1: channel resolution equals the reference definition — a non-empty
request override is returned verbatim; otherwise, when a consent
(subscription) record exists, exactly the channels whose per-channel flag is
`true`; otherwise the template's declared channel set. -/
theorem C1_channel_resolution_matches_reference
    (request : SendNotificationRequest)
    (subscriptionRows : List (List (DeliveryChannel × Bool)))
    (template : NotificationTemplate) :
    resolveChannels request subscriptionRows template =
      resolveChannelsSpec request subscriptionRows.head? template := by
  cases hc : request.channels with
  | none =>
      cases subscriptionRows <;>
        simp [resolveChannels, resolveChannelsSpec, resolveDefaultChannels, hc]
  | some cs =>
      cases cs with
      | nil =>
          cases subscriptionRows <;>
            simp [resolveChannels, resolveChannelsSpec, resolveDefaultChannels, hc]
      | cons c rest =>
          simp [resolveChannels, resolveChannelsSpec, resolveDefaultChannels, hc]

/-- Claim C10: a channel-override field that is present but empty is treated
identically to an absent override — resolution falls through to the consent
record and then the template's declared channels, and the entire dispatch is
unchanged. -/
theorem C10_empty_override_like_absent
    (env : Env) (db : Db) (tenantId userId templateKey : String)
    (vars : Option (List (String × String)))
    (subscriptionRows : List (List (DeliveryChannel × Bool)))
    (template : NotificationTemplate) :
    resolveChannels ⟨userId, templateKey, vars, some []⟩ subscriptionRows template =
      resolveChannels ⟨userId, templateKey, vars, none⟩ subscriptionRows template ∧
    sendNotification env db tenantId ⟨userId, templateKey, vars, some []⟩ =
      sendNotification env db tenantId ⟨userId, templateKey, vars, none⟩ := by
  constructor
  · simp [resolveChannels]
  · rfl

/-- Claim C7: rendering a bare placeholder whose variable is absent from the
map substitutes the empty string rather than failing; in particular rendering
`Hi \x7b\x7bname\x7d\x7d!` with the empty variable map yields `Hi !`. -/
theorem C7_missing_variable_empty_string
    (vars : List (String × String)) (w : String)
    (hw : w ∉ helperNames) (hl : vars.lookup w = none) :
    renderTok vars (Tok.mustache [w]) = .ok "" ∧
    render "Hi \x7b\x7bname\x7d\x7d!" [] = .ok "Hi !" := by
  constructor
  · simp only [renderTok, if_neg hw, hl]
    rfl
  · decide

/-- Witness for C7 at `w := "name"` with the empty variable map. -/
theorem C7_witness :
    renderTok [] (Tok.mustache ["name"]) = .ok "" ∧
    render "Hi \x7b\x7bname\x7d\x7d!" [] = .ok "Hi !" :=
  C7_missing_variable_empty_string [] "name" (by decide) rfl

/-- Claim C4: when a template has a translation neither for the user's locale
nor for the default locale `en-US`, dispatch fails with the
content-unavailable error and no delivery record is created; an exact locale
match is used when present, and otherwise the `en-US` entry is used. -/
theorem C4_locale_fallback_and_content_unavailable
    (env : Env) (db : Db) (tenantId : String) (request : SendNotificationRequest)
    (user : User) (us : List User)
    (template : NotificationTemplate) (ts : List NotificationTemplate)
    (hu : queryUsers db request.userId tenantId = user :: us)
    (ht : queryTemplates db tenantId request.templateKey = template :: ts) :
    ((template.translations.lookup user.locale = none ∧
        template.translations.lookup "en-US" = none) →
      sendNotification env db tenantId request =
        ([], .error "Failed to send notification: No translation available for user locale")) ∧
    (∀ c, template.translations.lookup user.locale = some c →
      lookupTranslation template user.locale = some c) ∧
    (template.translations.lookup user.locale = none →
      lookupTranslation template user.locale = template.translations.lookup "en-US") := by
  refine ⟨?_, ?_, ?_⟩
  · rintro ⟨h1, h2⟩
    have hlt : lookupTranslation template user.locale = none := by
      simp [lookupTranslation, h1, h2]
    simp [sendNotification, sendNotificationCore, hu, ht, hlt, Except.mapError]
  · intro c hc
    simp [lookupTranslation, hc]
  · intro hc
    simp [lookupTranslation, hc]

/-- Witness for C4 on a template with an empty translation map: the dispatch
fails with the content-unavailable message and an empty trace. -/
theorem C4_witness :
    sendNotification exEnv exDbNoLocale "t1" exRequestNoLocale =
      ([], .error "Failed to send notification: No translation available for user locale") :=
  (C4_locale_fallback_and_content_unavailable exEnv exDbNoLocale "t1" exRequestNoLocale
      exUser [] exTemplateNoLocale [] (by decide) (by decide)).1 ⟨by decide, by decide⟩

/-- Claim C8: for every attempted channel, the `PENDING` delivery record is
inserted before anything else happens for that channel (in particular before
any backend send), it is the only record inserted by the attempt, and it is
subsequently updated to `SENT` exactly when the backend reports success and to
`FAILED` otherwise. -/
theorem C8_pending_record_then_final_status
    (env : Env) (user : User) (channel : DeliveryChannel) (rc : RenderedContent)
    (n : Nat) (res : Option String) (trace : List Event)
    (h : sendToChannel env user channel rc n = (res, trace)) :
    (∃ rest, trace =
        Event.insertNotification (uuidString n) channel NotificationStatus.PENDING :: rest ∧
        ∀ e ∈ rest, isInsert e = false) ∧
    (Event.updateStatus (uuidString n) NotificationStatus.SENT none ∈ trace ↔
      ((∃ r, Event.providerSend (uuidString n) channel r rc ∈ trace) ∧
        env.providers.lookup channel = some ProviderBehavior.succeeds)) ∧
    (Event.updateStatus (uuidString n) NotificationStatus.SENT none ∉ trace →
      ∃ err, Event.updateStatus (uuidString n) NotificationStatus.FAILED err ∈ trace) := by
  cases hl : env.providers.lookup channel with
  | none =>
      simp only [sendToChannel, hl] at h
      have htr : trace = [Event.insertNotification (uuidString n) channel NotificationStatus.PENDING,
          Event.updateStatus (uuidString n) NotificationStatus.FAILED
            (some ("Provider not configured for channel " ++ channelName channel))] :=
        (congrArg Prod.snd h).symm
      subst htr
      refine ⟨⟨_, rfl, by simp [isInsert]⟩, ?_, ?_⟩
      · simp [hl]
      · intro h2
        exact ⟨some ("Provider not configured for channel " ++ channelName channel), by simp⟩
  | some b =>
      cases hr : recipientFor user channel with
      | none =>
          simp only [sendToChannel, hl, hr] at h
          have htr : trace = [Event.insertNotification (uuidString n) channel NotificationStatus.PENDING,
              Event.updateStatus (uuidString n) NotificationStatus.FAILED
                (some ("No recipient configured for channel " ++ channelName channel))] :=
            (congrArg Prod.snd h).symm
          subst htr
          refine ⟨⟨_, rfl, by simp [isInsert]⟩, ?_, ?_⟩
          · simp
          · intro h2
            exact ⟨some ("No recipient configured for channel " ++ channelName channel), by simp⟩
      | some r =>
          cases b with
          | succeeds =>
              simp only [sendToChannel, hl, hr] at h
              have htr : trace = [Event.insertNotification (uuidString n) channel NotificationStatus.PENDING,
                  Event.providerSend (uuidString n) channel r rc,
                  Event.updateStatus (uuidString n) NotificationStatus.SENT none] :=
                (congrArg Prod.snd h).symm
              subst htr
              refine ⟨⟨_, rfl, by simp [isInsert]⟩, ?_, ?_⟩
              · simp [hl]
              · intro h2
                exact absurd (by simp) h2
          | fails err =>
              simp only [sendToChannel, hl, hr] at h
              have htr : trace = [Event.insertNotification (uuidString n) channel NotificationStatus.PENDING,
                  Event.providerSend (uuidString n) channel r rc,
                  Event.updateStatus (uuidString n) NotificationStatus.FAILED err] :=
                (congrArg Prod.snd h).symm
              subst htr
              refine ⟨⟨_, rfl, by simp [isInsert]⟩, ?_, ?_⟩
              · simp [hl]
              · intro h2
                exact ⟨err, by simp⟩
          | throws msg =>
              simp only [sendToChannel, hl, hr] at h
              have htr : trace = [Event.insertNotification (uuidString n) channel NotificationStatus.PENDING,
                  Event.providerSend (uuidString n) channel r rc,
                  Event.updateStatus (uuidString n) NotificationStatus.FAILED (some msg)] :=
                (congrArg Prod.snd h).symm
              subst htr
              refine ⟨⟨_, rfl, by simp [isInsert]⟩, ?_, ?_⟩
              · simp [hl]
              · intro h2
                exact ⟨some msg, by simp⟩

/-- Witness for C8 on the fixture attempt `EMAIL` with a configured,
succeeding provider. -/
theorem C8_witness :
    (∃ rest, [Event.insertNotification (uuidString 0) DeliveryChannel.EMAIL NotificationStatus.PENDING,
        Event.providerSend (uuidString 0) DeliveryChannel.EMAIL "ana@example.com" exRendered,
        Event.updateStatus (uuidString 0) NotificationStatus.SENT none] =
        Event.insertNotification (uuidString 0) DeliveryChannel.EMAIL NotificationStatus.PENDING :: rest ∧
        ∀ e ∈ rest, isInsert e = false) ∧
    (Event.updateStatus (uuidString 0) NotificationStatus.SENT none ∈
        ([Event.insertNotification (uuidString 0) DeliveryChannel.EMAIL NotificationStatus.PENDING,
          Event.providerSend (uuidString 0) DeliveryChannel.EMAIL "ana@example.com" exRendered,
          Event.updateStatus (uuidString 0) NotificationStatus.SENT none] : List Event) ↔
      ((∃ r, Event.providerSend (uuidString 0) DeliveryChannel.EMAIL r exRendered ∈
          ([Event.insertNotification (uuidString 0) DeliveryChannel.EMAIL NotificationStatus.PENDING,
            Event.providerSend (uuidString 0) DeliveryChannel.EMAIL "ana@example.com" exRendered,
            Event.updateStatus (uuidString 0) NotificationStatus.SENT none] : List Event)) ∧
        exEnv.providers.lookup DeliveryChannel.EMAIL = some ProviderBehavior.succeeds)) ∧
    (Event.updateStatus (uuidString 0) NotificationStatus.SENT none ∉
        ([Event.insertNotification (uuidString 0) DeliveryChannel.EMAIL NotificationStatus.PENDING,
          Event.providerSend (uuidString 0) DeliveryChannel.EMAIL "ana@example.com" exRendered,
          Event.updateStatus (uuidString 0) NotificationStatus.SENT none] : List Event) →
      ∃ err, Event.updateStatus (uuidString 0) NotificationStatus.FAILED err ∈
        ([Event.insertNotification (uuidString 0) DeliveryChannel.EMAIL NotificationStatus.PENDING,
          Event.providerSend (uuidString 0) DeliveryChannel.EMAIL "ana@example.com" exRendered,
          Event.updateStatus (uuidString 0) NotificationStatus.SENT none] : List Event)) :=
  C8_pending_record_then_final_status exEnv exUser DeliveryChannel.EMAIL exRendered 0
    (some (uuidString 0)) _ (by decide)

/-- Claim C6 counterexample: with EMAIL configured and working and SMS
unconfigured, the SMS delivery record carries the specific reason
`Provider not configured for channel SMS`, but the aggregated failure entry
returned to the caller carries the generic message
`Failed to send notification`, not the specific reason. -/
theorem C6_counterexample :
    (sendNotification exEnv exDb "t1" exRequest).2 =
      .ok { success := true, notificationIds := ["uuid-0"],
            errors := some [(DeliveryChannel.SMS, "Failed to send notification")] } ∧
    Event.updateStatus "uuid-1" NotificationStatus.FAILED
        (some "Provider not configured for channel SMS") ∈
      (sendNotification exEnv exDb "t1" exRequest).1 ∧
    ("Failed to send notification" : String) ≠ "Provider not configured for channel SMS" := by
  decide

/-- Claim C6 (amended): when a channel's send attempt fails, the specific
reason — unconfigured provider, missing recipient, or the backend's
reported/thrown reason — is recorded in that channel's delivery record, while
the aggregated failure list returned to the caller carries, for every failed
channel, the fixed generic message `Failed to send notification`. -/
theorem C6_specific_reason_in_record_generic_in_response
    (env : Env) (user : User) (channel : DeliveryChannel) (rc : RenderedContent)
    (n : Nat) (trace : List Event)
    (h : sendToChannel env user channel rc n = (none, trace)) :
    (∃ err, Event.updateStatus (uuidString n) NotificationStatus.FAILED err ∈ trace ∧
      err = failReason env user channel ∧
      ((env.providers.lookup channel = none ∧
          err = some ("Provider not configured for channel " ++ channelName channel)) ∨
       (∃ b, env.providers.lookup channel = some b ∧ recipientFor user channel = none ∧
          err = some ("No recipient configured for channel " ++ channelName channel)) ∨
       (∃ e, env.providers.lookup channel = some (ProviderBehavior.fails e) ∧ err = e) ∨
       (∃ m, env.providers.lookup channel = some (ProviderBehavior.throws m) ∧
          err = some m))) ∧
    (∀ (env2 : Env) (db : Db) (tenantId : String) (request : SendNotificationRequest)
        (trace2 : List Event) (resp : SendNotificationResponse),
      sendNotification env2 db tenantId request = (trace2, .ok resp) →
      ∀ p ∈ resp.errors.getD [], Prod.snd p = genericSendError) := by
  constructor
  · cases hl : env.providers.lookup channel with
    | none =>
        simp only [sendToChannel, hl] at h
        have htr : trace = [Event.insertNotification (uuidString n) channel NotificationStatus.PENDING,
            Event.updateStatus (uuidString n) NotificationStatus.FAILED
              (some ("Provider not configured for channel " ++ channelName channel))] :=
          (congrArg Prod.snd h).symm
        subst htr
        exact ⟨_, by simp, by simp [failReason, hl], Or.inl ⟨rfl, rfl⟩⟩
    | some b =>
        cases hr : recipientFor user channel with
        | none =>
            simp only [sendToChannel, hl, hr] at h
            have htr : trace = [Event.insertNotification (uuidString n) channel NotificationStatus.PENDING,
                Event.updateStatus (uuidString n) NotificationStatus.FAILED
                  (some ("No recipient configured for channel " ++ channelName channel))] :=
              (congrArg Prod.snd h).symm
            subst htr
            exact ⟨_, by simp, by simp [failReason, hl, hr], Or.inr (Or.inl ⟨b, rfl, rfl, rfl⟩)⟩
        | some r =>
            cases b with
            | succeeds =>
                simp only [sendToChannel, hl, hr] at h
                exact absurd (congrArg Prod.fst h) (by simp)
            | fails err =>
                simp only [sendToChannel, hl, hr] at h
                have htr : trace = [Event.insertNotification (uuidString n) channel NotificationStatus.PENDING,
                    Event.providerSend (uuidString n) channel r rc,
                    Event.updateStatus (uuidString n) NotificationStatus.FAILED err] :=
                  (congrArg Prod.snd h).symm
                subst htr
                exact ⟨err, by simp, by simp [failReason, hl, hr],
                  Or.inr (Or.inr (Or.inl ⟨err, rfl, rfl⟩))⟩
            | throws msg =>
                simp only [sendToChannel, hl, hr] at h
                have htr : trace = [Event.insertNotification (uuidString n) channel NotificationStatus.PENDING,
                    Event.providerSend (uuidString n) channel r rc,
                    Event.updateStatus (uuidString n) NotificationStatus.FAILED (some msg)] :=
                  (congrArg Prod.snd h).symm
                subst htr
                exact ⟨some msg, by simp, by simp [failReason, hl, hr],
                  Or.inr (Or.inr (Or.inr ⟨msg, rfl, rfl⟩))⟩
  · intro env2 db tenantId request trace2 resp h2 p hp
    obtain ⟨user2, us, template, ts, translation, rc2, hu, ht, htr, hrc, htr2, hresp⟩ :=
      sendNotification_ok_inv env2 db tenantId request trace2 resp h2
    rw [hresp, aggregateResult_errors_getD, sendLoop_errs] at hp
    obtain ⟨c, hc, hpc⟩ := List.mem_map.mp hp
    rw [← hpc]

/-- Witness for the amended C6 on the fixture attempt `SMS` (unconfigured
provider): applies the theorem at a concrete failing channel. -/
theorem C6_witness :
    ∃ err, Event.updateStatus (uuidString 1) NotificationStatus.FAILED err ∈
        ([Event.insertNotification (uuidString 1) DeliveryChannel.SMS NotificationStatus.PENDING,
          Event.updateStatus (uuidString 1) NotificationStatus.FAILED
            (some "Provider not configured for channel SMS")] : List Event) ∧
      err = failReason exEnv exUser DeliveryChannel.SMS ∧
      ((exEnv.providers.lookup DeliveryChannel.SMS = none ∧
          err = some ("Provider not configured for channel " ++ channelName DeliveryChannel.SMS)) ∨
       (∃ b, exEnv.providers.lookup DeliveryChannel.SMS = some b ∧
          recipientFor exUser DeliveryChannel.SMS = none ∧
          err = some ("No recipient configured for channel " ++ channelName DeliveryChannel.SMS)) ∨
       (∃ e, exEnv.providers.lookup DeliveryChannel.SMS = some (ProviderBehavior.fails e) ∧
          err = e) ∨
       (∃ m, exEnv.providers.lookup DeliveryChannel.SMS = some (ProviderBehavior.throws m) ∧
          err = some m)) :=
  (C6_specific_reason_in_record_generic_in_response exEnv exUser DeliveryChannel.SMS
      exRendered 1 _ (by decide)).1

/-- Claim C2: for every dispatch that reaches aggregation, overall success is
true iff some channel's record was updated to `SENT` (iff the collected
delivery-id list is non-empty); the response carries exactly the ids updated
to `SENT`, and its failure list is empty iff no channel failed. -/
theorem C2_success_iff_some_sent
    (env : Env) (db : Db) (tenantId : String) (request : SendNotificationRequest)
    (trace : List Event) (resp : SendNotificationResponse)
    (h : sendNotification env db tenantId request = (trace, .ok resp)) :
    (resp.success = true ↔
      ∃ id err, Event.updateStatus id NotificationStatus.SENT err ∈ trace) ∧
    (resp.success = true ↔ resp.notificationIds ≠ []) ∧
    resp.notificationIds = sentIds trace ∧
    (resp.errors.getD [] = [] ↔
      ∀ id err, Event.updateStatus id NotificationStatus.FAILED err ∉ trace) := by
  obtain ⟨user, us, template, ts, translation, rc, hu, ht, htr, hrc, htrace, hresp⟩ :=
    sendNotification_ok_inv env db tenantId request trace resp h
  subst htrace
  subst hresp
  have hsent := sendLoop_sentIds env user rc
    (resolveChannels request (querySubscriptions db user.id request.templateKey) template) 0
  refine ⟨?_, ?_, ?_, ?_⟩
  · simp only [aggregateResult, decide_eq_true_eq]
    constructor
    · intro hpos
      obtain ⟨id, hid⟩ := List.exists_mem_of_length_pos hpos
      rw [← hsent] at hid
      obtain ⟨err, hmem⟩ := (sentIds_mem _ id).mp hid
      exact ⟨id, err, hmem⟩
    · rintro ⟨id, err, hmem⟩
      have hid : id ∈ sentIds _ := (sentIds_mem _ id).mpr ⟨err, hmem⟩
      rw [hsent] at hid
      exact List.length_pos_of_mem hid
  · simp [aggregateResult, List.length_pos]
  · exact hsent.symm
  · rw [aggregateResult_errors_getD, ← sendLoop_failedUpdates_nil_iff,
      List.eq_nil_iff_forall_not_mem]
    constructor
    · intro hall id err hmem
      exact hall (id, err) ((failedUpdates_mem _ id err).mpr hmem)
    · intro hall p hmem
      exact hall p.1 p.2 ((failedUpdates_mem _ p.1 p.2).mp hmem)

/-- Witness for C2 on the fixture dispatch (EMAIL succeeds, SMS
unconfigured). -/
theorem C2_witness :
    (exResponse.success = true ↔
      ∃ id err, Event.updateStatus id NotificationStatus.SENT err ∈ exTrace) ∧
    (exResponse.success = true ↔ exResponse.notificationIds ≠ []) ∧
    exResponse.notificationIds = sentIds exTrace ∧
    (exResponse.errors.getD [] = [] ↔
      ∀ id err, Event.updateStatus id NotificationStatus.FAILED err ∉ exTrace) :=
  C2_success_iff_some_sent exEnv exDb "t1" exRequest exTrace exResponse (by decide)

/-- Claim C3: per-channel failures are isolated — once a dispatch reaches the
per-channel phase its result is a normal response whatever the provider
behaviours are, every resolved channel gets its delivery record inserted
(one failure never aborts the siblings), and a dispatch with zero successful
channels returns overall success `false` rather than an error. -/
theorem C3_per_channel_failures_isolated
    (env : Env) (db : Db) (tenantId : String) (request : SendNotificationRequest)
    (user : User) (us : List User)
    (template : NotificationTemplate) (ts : List NotificationTemplate)
    (translation : TemplateTranslation) (rc : RenderedContent)
    (hu : queryUsers db request.userId tenantId = user :: us)
    (ht : queryTemplates db tenantId request.templateKey = template :: ts)
    (htr : lookupTranslation template user.locale = some translation)
    (hrc : renderContent translation (request.vars.getD []) = .ok rc) :
    ∃ resp trace,
      sendNotification env db tenantId request = (trace, .ok resp) ∧
      insertedChannels trace =
        resolveChannels request (querySubscriptions db user.id request.templateKey) template ∧
      (resp.notificationIds = [] → resp.success = false) := by
  refine ⟨aggregateResult (sendLoop env user rc
      (resolveChannels request (querySubscriptions db user.id request.templateKey) template) 0),
    (sendLoop env user rc
      (resolveChannels request (querySubscriptions db user.id request.templateKey) template)
      0).2.2, ?_, ?_, ?_⟩
  · rw [sendNotification,
      sendNotificationCore_ok env db tenantId request user us template ts translation rc
        hu ht htr hrc]
    rfl
  · exact sendLoop_insertedChannels env user rc _ 0
  · intro h0
    simp only [aggregateResult] at h0 ⊢
    rw [h0]
    rfl

/-- Witness for C3 on the fixture dispatch. -/
theorem C3_witness :
    ∃ resp trace,
      sendNotification exEnv exDb "t1" exRequest = (trace, .ok resp) ∧
      insertedChannels trace =
        resolveChannels exRequest (querySubscriptions exDb exUser.id exRequest.templateKey)
          exTemplate ∧
      (resp.notificationIds = [] → resp.success = false) :=
  C3_per_channel_failures_isolated exEnv exDb "t1" exRequest exUser [] exTemplate []
    exTranslation exRendered (by decide) (by decide) (by decide) (by decide)

/-- Claim C9: each resolved channel contributes exactly one outcome — exactly
one delivery id or exactly one failure entry — so the two list lengths sum to
the number of resolved channels, the failure list holds exactly the failing
channels in iteration order, and the delivery-id list holds exactly the ids of
the succeeding positions in iteration order. -/
theorem C9_one_outcome_per_channel
    (env : Env) (db : Db) (tenantId : String) (request : SendNotificationRequest)
    (user : User) (us : List User)
    (template : NotificationTemplate) (ts : List NotificationTemplate)
    (translation : TemplateTranslation) (rc : RenderedContent)
    (hu : queryUsers db request.userId tenantId = user :: us)
    (ht : queryTemplates db tenantId request.templateKey = template :: ts)
    (htr : lookupTranslation template user.locale = some translation)
    (hrc : renderContent translation (request.vars.getD []) = .ok rc) :
    ∃ resp trace,
      sendNotification env db tenantId request = (trace, .ok resp) ∧
      resp.notificationIds.length + (resp.errors.getD []).length =
        (resolveChannels request (querySubscriptions db user.id request.templateKey)
          template).length ∧
      resp.errors.getD [] =
        ((resolveChannels request (querySubscriptions db user.id request.templateKey)
            template).filter (fun c => !(channelSucceeds env user c))).map
          (fun c => (c, genericSendError)) ∧
      resp.notificationIds =
        ((List.enumFrom 0
            (resolveChannels request (querySubscriptions db user.id request.templateKey)
              template)).filter (fun p => channelSucceeds env user p.2)).map
          (fun p => uuidString p.1) := by
  refine ⟨aggregateResult (sendLoop env user rc
      (resolveChannels request (querySubscriptions db user.id request.templateKey) template) 0),
    (sendLoop env user rc
      (resolveChannels request (querySubscriptions db user.id request.templateKey) template)
      0).2.2, ?_, ?_, ?_, ?_⟩
  · rw [sendNotification,
      sendNotificationCore_ok env db tenantId request user us template ts translation rc
        hu ht htr hrc]
    rfl
  · rw [aggregateResult_errors_getD]
    exact sendLoop_length env user rc _ 0
  · rw [aggregateResult_errors_getD]
    exact sendLoop_errs env user rc _ 0
  · exact sendLoop_ids env user rc _ 0

/-- Witness for C9 on the fixture dispatch. -/
theorem C9_witness :
    ∃ resp trace,
      sendNotification exEnv exDb "t1" exRequest = (trace, .ok resp) ∧
      resp.notificationIds.length + (resp.errors.getD []).length =
        (resolveChannels exRequest (querySubscriptions exDb exUser.id exRequest.templateKey)
          exTemplate).length ∧
      resp.errors.getD [] =
        ((resolveChannels exRequest (querySubscriptions exDb exUser.id exRequest.templateKey)
            exTemplate).filter (fun c => !(channelSucceeds exEnv exUser c))).map
          (fun c => (c, genericSendError)) ∧
      resp.notificationIds =
        ((List.enumFrom 0
            (resolveChannels exRequest (querySubscriptions exDb exUser.id exRequest.templateKey)
              exTemplate)).filter (fun p => channelSucceeds exEnv exUser p.2)).map
          (fun p => uuidString p.1) :=
  C9_one_outcome_per_channel exEnv exDb "t1" exRequest exUser [] exTemplate []
    exTranslation exRendered (by decide) (by decide) (by decide) (by decide)

/-- Claim C5: a pattern applying an unregistered transform fails to render
with the template-error wrapper, and that render failure is terminal for the
whole dispatch: the call returns the wrapped error and the trace is empty, so
zero delivery records are created for any channel. -/
theorem C5_unknown_transform_is_terminal
    (env : Env) (db : Db) (tenantId : String) (request : SendNotificationRequest)
    (user : User) (us : List User)
    (template : NotificationTemplate) (ts : List NotificationTemplate)
    (translation : TemplateTranslation) (hword aword : String) (rest : List String)
    (hu : queryUsers db request.userId tenantId = user :: us)
    (ht : queryTemplates db tenantId request.templateKey = template :: ts)
    (htr : lookupTranslation template user.locale = some translation)
    (hm : Tok.mustache (hword :: aword :: rest) ∈ (parseToks translation.body.data).getD [])
    (hh : hword ∉ helperNames) :
    (∃ m, render translation.body (request.vars.getD []) = .error (renderFailedMsg m)) ∧
    (∃ m, sendNotification env db tenantId request =
        ([], .error ("Failed to send notification: " ++ renderFailedMsg m))) := by
  obtain ⟨m1, hr⟩ := render_fails_of_unknown_helper translation.body (request.vars.getD [])
    hword aword rest hm hh
  refine ⟨⟨m1, hr⟩, ?_⟩
  obtain ⟨m2, hrc⟩ := renderContent_fails_of_body translation (request.vars.getD []) _ hr
  exact ⟨m2, by simp [sendNotification, sendNotificationCore, hu, ht, htr, hrc,
    Except.mapError]⟩

/-- Witness for C5 on the fixture template whose body applies the unregistered
transform `frobnicate`. -/
theorem C5_witness :
    (∃ m, render exTranslationBad.body (exRequestBad.vars.getD []) =
        .error (renderFailedMsg m)) ∧
    (∃ m, sendNotification exEnv exDbBad "t1" exRequestBad =
        ([], .error ("Failed to send notification: " ++ renderFailedMsg m))) :=
  C5_unknown_transform_is_terminal exEnv exDbBad "t1" exRequestBad exUser [] exTemplateBad []
    exTranslationBad "frobnicate" "name" [] (by decide) (by decide) (by decide) (by decide)
    (by decide)

end NotificationSvc
